import Mathlib

/-!
Verification development for the VetLab Pro quantitative calculation engine
(src/App.js).  The definitions below are a shallow embedding of the numeric
core: JavaScript double arithmetic is modelled by exact rational arithmetic
(`ℚ`), with `Option ℚ` standing for a JS number that may be `NaN`
(`none` = NaN, produced by an undefined unit-table lookup propagating
through arithmetic).  `Math.pow(10, x)` is modelled by `Real.rpow`, so the
buffer calculator produces real-valued outputs.
-/

/-- JS multiplication on possibly-NaN numbers: NaN propagates. -/
def jsMul : Option ℚ → Option ℚ → Option ℚ
  | some a, some b => some (a * b)
  | _, _ => none

/-- JS division on possibly-NaN numbers.  NaN propagates.  A zero
denominator would give ±Infinity in JS; every division performed by the
calculators has a guard making the denominator nonzero, so that branch is
mapped to `none` and is unreachable in the claims below. -/
def jsDiv : Option ℚ → Option ℚ → Option ℚ
  | some a, some b => if b = 0 then none else some (a / b)
  | _, _ => none

/-- JS comparison `x > 0` on a possibly-NaN number: `NaN > 0` is false. -/
def jsGtZero : Option ℚ → Bool
  | some a => decide (0 < a)
  | none => false

/-- Drops the first decimal point of a character list (helper for the
second `replace` of `filterNumeric`). -/
def dropFirstDot : List Char → List Char
  | [] => []
  | c :: cs => if c = '.' then cs else c :: dropFirstDot cs

/-- Semantics of `.replace(/(\..*)\./g, "$1")` (App.js line 71).  The
regex starts at the first '.', the greedy `.*` backtracks so that the
final `\.` matches the last '.' of the string, and the replacement keeps
everything but that last dot; the global scan then resumes past the last
dot, where no further match exists.  Hence: if the string holds at least
two dots, exactly the last dot is deleted; otherwise it is unchanged. -/
def collapseDots (l : List Char) : List Char :=
  if 2 ≤ l.count '.' then (dropFirstDot l.reverse).reverse else l

/-- Embedding of `filterNumeric` (App.js lines 70-72): strip every
character that is not a digit or a dot, then apply the second replace. -/
def filterNumeric (s : String) : String :=
  ⟨collapseDots (s.data.filter fun c => c.isDigit ∨ c = '.')⟩

/-- Result of `fmt` (App.js lines 81-88).  `dash` and `sci` model the two
string-returning branches (`"—"` and `num.toExponential(d)`, the latter
abstracted by its arguments); `num` models the third branch, which
returns `Number(num.toFixed(d))` — a JS number, not a string. -/
inductive FmtResult where
  | dash : FmtResult
  | sci : ℚ → ℕ → FmtResult
  | num : ℚ → FmtResult
deriving DecidableEq

/-- Whether a fmt result is a JS string (the `num` branch is a number). -/
def FmtResult.isString : FmtResult → Bool
  | .num _ => false
  | _ => true

/-- Value of `Number(v.toFixed(d))`: v rounded to d fractional digits
(round half toward +∞, as ECMA `toFixed` picks the larger candidate),
re-read as a number. -/
def toFixedNum (v : ℚ) (d : ℕ) : ℚ :=
  ⌊v * 10 ^ d + 1 / 2⌋ / 10 ^ d

/-- Embedding of `fmt` (App.js lines 81-88).  Input `none` stands for
null / undefined / NaN. -/
def fmt (v : Option ℚ) (d : ℕ := 4) : FmtResult :=
  match v with
  | none => FmtResult.dash
  | some q =>
    if |q| < 1 / 10000 ∧ q ≠ 0 then FmtResult.sci q d
    else FmtResult.num (toFixedNum q d)

/-- Families present in `UNITS_MAP` (App.js lines 32-65). -/
def knownFamilies : List String := ["MASS", "VOLUME", "MOLARITY", "TEMP", "CONC_DOSE"]

/-- Factor tables of the linear families of `UNITS_MAP` (App.js lines
32-65).  TEMP is non-linear (its F and K entries are functions) and is
special-cased inside `convertUnit`, exactly as in the source. -/
def linearFactors : String → List (String × ℚ)
  | "MASS" => [("kg", 1000), ("g", 1), ("mg", 1 / 1000), ("ug", 1 / 1000000)]
  | "VOLUME" => [("L", 1), ("mL", 1 / 1000), ("uL", 1 / 1000000)]
  | "MOLARITY" => [("M", 1), ("mM", 1 / 1000), ("uM", 1 / 1000000)]
  | "CONC_DOSE" => [("mg/mL", 1), ("g/L", 1), ("mcg/mL", 1 / 1000), ("% w/v", 10)]
  | _ => []

/-- Units of a family as listed in `UNITS_MAP`. -/
def unitsOf (fam : String) : List String :=
  if fam = "TEMP" then ["C", "F", "K"] else (linearFactors fam).map Prod.fst

/-- Translation of a temperature to the Celsius pivot (App.js lines
96-98: `baseC`). -/
def tempToCelsius (fromUnit : String) (value : ℚ) : ℚ :=
  if fromUnit = "F" then (value - 32) * 5 / 9
  else if fromUnit = "K" then value - 273.15
  else value

/-- Embedding of `convertUnit` (App.js lines 91-109).  An unknown family
returns the value unchanged; TEMP pivots through Celsius; linear families
compute `value * factor[from] / factor[to]`, where a missing unit key
makes the whole chain NaN (`none`), as `undefined` arithmetic does. -/
def convertUnit (value : ℚ) (fromUnit toUnit unitType : String) : Option ℚ :=
  if unitType ∉ knownFamilies then some value
  else if unitType = "TEMP" then
    if toUnit = "C" then some (tempToCelsius fromUnit value)
    else if toUnit = "F" then some (tempToCelsius fromUnit value * 9 / 5 + 32)
    else if toUnit = "K" then some (tempToCelsius fromUnit value + 273.15)
    else some (tempToCelsius fromUnit value)
  else
    match List.lookup fromUnit (linearFactors unitType),
        List.lookup toUnit (linearFactors unitType) with
    | some ff, some tf => some (value * ff / tf)
    | _, _ => none

/-- Fields computed by the dose useMemo (App.js lines 444-472); each one
is a JS number that may be NaN. -/
structure DoseResult where
  totalDoseMg : Option ℚ
  volNeeded : Option ℚ
  mlHrRate : Option ℚ
  dropRate : Option ℚ
deriving DecidableEq

/-- Embedding of the dose useMemo (App.js lines 444-472), taking the
already-parsed numeric inputs (`safeParse` results).  `none` models the
empty object returned on the incomplete-input guard. -/
def doseCalc (W D C T : ℚ) (doseUnit concUnit : String) : Option DoseResult :=
  if W ≤ 0 ∨ D ≤ 0 ∨ C ≤ 0 then none
  else
    let dMgKg := convertUnit D doseUnit "mg/kg" "MASS"
    let cMgMl := convertUnit C concUnit "mg/mL" "CONC_DOSE"
    let total := jsMul (some W) dMgKg
    let vol := jsDiv total cMgMl
    if jsGtZero vol = true ∧ 0 < T then
      some ⟨total, vol, jsMul (jsDiv vol (some T)) (some 60),
        jsDiv (jsMul vol (some 20)) (some T)⟩
    else some ⟨total, vol, some 0, some 0⟩

/-- Embedding of the solution-mass useMemo `g_result` (App.js lines
548-572), over parsed inputs.  The incomplete-input path returns the
number 0. -/
def solutionGrams (MW C V : ℚ) (concUnit volUnit : String) : Option ℚ :=
  if MW ≤ 0 ∨ V ≤ 0 ∨ C ≤ 0 then some 0
  else
    let vL := convertUnit V volUnit "L" "VOLUME"
    if concUnit = "% w/v" then
      jsDiv (jsMul (some C) (convertUnit V volUnit "mL" "VOLUME")) (some 100)
    else if concUnit = "M" then jsMul (jsMul (some C) vL) (some MW)
    else jsMul (jsMul (convertUnit C concUnit "M" "MOLARITY") vL) (some MW)

/-- The loop of the dilution useMemo (App.js lines 637-640): starting
from `c`, divide by DF once per step and record each value. -/
def dilutionSteps (DF : ℚ) : ℚ → ℕ → List ℚ
  | _, 0 => []
  | c, n + 1 => (c / DF) :: dilutionSteps DF (c / DF) n

/-- Embedding of the dilution useMemo (App.js lines 627-642) over parsed
inputs, keeping each entry's concentration.  The JS loop
`for (let i = 1; i <= S; i++)` runs `⌊S⌋` times for S > 0. -/
def dilutionData (C0 DF S : ℚ) : List ℚ :=
  if C0 ≤ 0 ∨ DF ≤ 1 ∨ S ≤ 0 ∨ 10 < S then []
  else C0 :: dilutionSteps DF C0 (Int.toNat ⌊S⌋)

/-- The local `ratio = Math.pow(10, pH - pKa)` of the buffer useMemo
(App.js lines 740-741), over the parsed inputs. -/
noncomputable def hhRatio (pH pKa : ℚ) : ℝ :=
  (10 : ℝ) ^ ((pH : ℝ) - (pKa : ℝ))

/-- The local `X_Salt = ratio / (1 + ratio)` (App.js line 744). -/
noncomputable def X_Salt (pH pKa : ℚ) : ℝ :=
  hhRatio pH pKa / (1 + hhRatio pH pKa)

/-- The local `X_Acid = 1 / (1 + ratio)` (App.js line 745). -/
noncomputable def X_Acid (pH pKa : ℚ) : ℝ :=
  1 / (1 + hhRatio pH pKa)

/-- Fields returned by the buffer useMemo (App.js line 754). -/
structure BufferResult where
  ratio : ℝ
  acidMass : ℝ
  saltMass : ℝ

/-- Embedding of the buffer useMemo (App.js lines 729-756) over parsed
inputs.  The registry call uses the fixed literals `'mL'`, `'L'`,
`'VOLUME'` and always succeeds; `getD 0` only covers the impossible
missing-key branch. -/
noncomputable def bufferCalc (pH pKa MWa MWs V C : ℚ) : Option BufferResult :=
  if pKa ≤ 0 ∨ V ≤ 0 ∨ C ≤ 0 ∨ MWa ≤ 0 ∨ MWs ≤ 0 then none
  else
    some { ratio := hhRatio pH pKa
           acidMass := X_Acid pH pKa * (C : ℝ) *
             (((convertUnit V "mL" "L" "VOLUME").getD 0 : ℚ) : ℝ) * (MWa : ℝ)
           saltMass := X_Salt pH pKa * (C : ℝ) *
             (((convertUnit V "mL" "L" "VOLUME").getD 0 : ℚ) : ℝ) * (MWs : ℝ) }

/-- The save condition of the buffer `calculate` handler (App.js line
759): a record is written iff `acidMass > 0 && saltMass > 0`. -/
def bufferSaves (pH pKa MWa MWs V C : ℚ) : Prop :=
  match bufferCalc pH pKa MWa MWs V C with
  | some r => 0 < r.acidMass ∧ 0 < r.saltMass
  | none => False

/-- Embedding of the conversion-screen result useMemo (App.js lines
827-831) over the parsed value: short-circuit to the parsed value itself
when it is 0 or the units are equal, otherwise call `convertUnit`. -/
def conversionResult (val : ℚ) (fromUnit toUnit category : String) : Option ℚ :=
  if val = 0 ∨ fromUnit = toUnit then some val
  else convertUnit val fromUnit toUnit category

/-- The save condition of the conversion `calculate` handler (App.js
lines 833-840): a record is written iff `result !== 0`; note that
`NaN !== 0` is true in JS, hence `none ↦ true`. -/
def conversionSaves (val : ℚ) (fromUnit toUnit category : String) : Bool :=
  match conversionResult val fromUnit toUnit category with
  | some q => decide (q ≠ 0)
  | none => true

/-- Helper: the MASS table has no key `'mg/kg'`, so converting any dose
value toward `'mg/kg'` yields NaN regardless of the source unit. -/
theorem convertUnit_to_mgkg_none (D : ℚ) (doseUnit : String) :
    convertUnit D doseUnit "mg/kg" "MASS" = none := by
  unfold convertUnit
  rw [if_neg (by decide), if_neg (by decide)]
  have h : List.lookup "mg/kg" (linearFactors "MASS") = none := rfl
  rw [h]
  cases List.lookup doseUnit (linearFactors "MASS") <;> rfl

/-- C1.  The spec's dose-calculator scenario fails on the code: with
weight 10 kg, dose 5 (unit `mg/kg`), stock 50 mg/mL and time 0, the dose
useMemo converts the dose via `convertUnit(D, doseUnit, 'mg/kg', 'MASS')`,
but `'mg/kg'` is not a key of the MASS table, so `totalDoseMg` and
`volNeeded` are NaN (not 50 mg and 1 mL); indeed the target lookup fails
for every dose unit, so the dose calculator never produces a finite
total dose. -/
theorem dose_mgkg_lookup_nan :
    doseCalc 10 5 50 0 "mg/kg" "mg/mL" = some ⟨none, none, some 0, some 0⟩ ∧
    ∀ (D : ℚ) (doseUnit : String),
      convertUnit D doseUnit "mg/kg" "MASS" = none :=
  ⟨by decide, convertUnit_to_mgkg_none⟩

/-- C2.  The solution calculator's guard `MW <= 0` runs before the
`% w/v` branch, so with MW left empty (parsed 0), C = 10 % w/v and
V = 100 mL the code returns the no-result placeholder 0 instead of the
claimed `C * V_mL / 100 = 10` grams; the formula is only reached once a
positive MW is supplied, contradicting the claim (and the app's own
footnote) that MW is not required for `% w/v`. -/
theorem solution_percent_wv_mw_guard :
    solutionGrams 0 10 100 "% w/v" "mL" = some 0 ∧
    solutionGrams 1 10 100 "% w/v" "mL" = some 10 := by
  refine ⟨by decide, ?_⟩
  show jsDiv (some (10 * (100 * (1 / 1000) / (1 / 1000)))) (some 100) = some 10
  rw [jsDiv, if_neg (by norm_num)]
  congr 1
  norm_num

/-- C3 counterexample.  An identity conversion with a nonzero value is
saved: with value 5 and fromUnit = toUnit = `'g'` the result short-circuit
returns 5, and the calculate handler's `result !== 0` check passes, so a
record is handed to the history collaborator — refuting the claim that
`fromUnit == toUnit` never produces a saved record. -/
theorem conversion_identity_saved :
    conversionSaves 5 "g" "g" "MASS" = true := by decide

/-- C3 (amended).  A parsed value of 0 never produces a saved record;
when `fromUnit = toUnit` the short-circuit returns the parsed value
unchanged, and a record is saved exactly when that value is nonzero. -/
theorem conversion_zero_and_identity :
    ∀ (v : ℚ) (f t c : String),
      (v = 0 → conversionSaves v f t c = false) ∧
      (f = t → conversionResult v f t c = some v ∧
        (conversionSaves v f t c = true ↔ v ≠ 0)) := by
  intro v f t c
  constructor
  · rintro rfl
    simp [conversionSaves, conversionResult]
  · rintro rfl
    refine ⟨by simp [conversionResult], ?_⟩
    simp [conversionSaves, conversionResult]

/-- C3 witness: a zero parsed value is not saved. -/
theorem conversion_zero_and_identity_witness :
    conversionSaves 0 "g" "mg" "MASS" = false :=
  (conversion_zero_and_identity 0 "g" "mg" "MASS").1 rfl

/-- C5.  The keystroke filter is not idempotent and does not collapse
every extra decimal point: the second replace, `/(\..*)\./g` with a
greedy `.*`, deletes only the last dot per pass, so
`filterNumeric "1.2.3.4" = "1.2.34"` still holds two dots, and filtering
again gives the different string `"1.234"` — contradicting the claim and
the function's own comment ("only numbers and a single decimal point"). -/
theorem filterNumeric_not_idempotent :
    filterNumeric "1.2.3.4" = "1.2.34" ∧
    (filterNumeric "1.2.3.4").data.count '.' = 2 ∧
    filterNumeric (filterNumeric "1.2.3.4") ≠ filterNumeric "1.2.3.4" := by
  refine ⟨by decide, by decide, by decide⟩

/-- C9.  Identity conversion: for every family in the registry and every
unit of that family, `convertUnit v u u fam = v` (exact arithmetic
model of the float chain `v * factor[u] / factor[u]`, and the Celsius
pivot round-trip for TEMP). -/
theorem convert_identity_thm :
    ∀ fam ∈ knownFamilies, ∀ u ∈ unitsOf fam, ∀ (v : ℚ),
      convertUnit v u u fam = some v := by
  intro fam hfam u hu v
  fin_cases hfam <;> simp [unitsOf, linearFactors] at hu
  · rcases hu with rfl | rfl | rfl | rfl
    · show some (v * 1000 / 1000) = some v
      congr 1
      norm_num
    · show some (v * 1 / 1) = some v
      congr 1
      norm_num
    · show some (v * (1 / 1000) / (1 / 1000)) = some v
      congr 1
      norm_num
    · show some (v * (1 / 1000000) / (1 / 1000000)) = some v
      congr 1
      norm_num
  · rcases hu with rfl | rfl | rfl
    · show some (v * 1 / 1) = some v
      congr 1
      norm_num
    · show some (v * (1 / 1000) / (1 / 1000)) = some v
      congr 1
      norm_num
    · show some (v * (1 / 1000000) / (1 / 1000000)) = some v
      congr 1
      norm_num
  · rcases hu with rfl | rfl | rfl
    · show some (v * 1 / 1) = some v
      congr 1
      norm_num
    · show some (v * (1 / 1000) / (1 / 1000)) = some v
      congr 1
      norm_num
    · show some (v * (1 / 1000000) / (1 / 1000000)) = some v
      congr 1
      norm_num
  · rcases hu with rfl | rfl | rfl
    · rfl
    · show some ((v - 32) * 5 / 9 * 9 / 5 + 32) = some v
      congr 1
      ring
    · show some (v - 273.15 + 273.15) = some v
      congr 1
      ring
  · rcases hu with rfl | rfl | rfl | rfl
    · show some (v * 1 / 1) = some v
      congr 1
      norm_num
    · show some (v * 1 / 1) = some v
      congr 1
      norm_num
    · show some (v * (1 / 1000) / (1 / 1000)) = some v
      congr 1
      norm_num
    · show some (v * 10 / 10) = some v
      congr 1
      norm_num

/-- C9 witness: identity conversion of 2 kg within MASS. -/
theorem convert_identity_witness :
    convertUnit 2 "kg" "kg" "MASS" = some 2 :=
  convert_identity_thm "MASS" (by decide) "kg" (by decide) 2

/-- C10.  In the TEMP family, a target unit other than `'C'`, `'F'`,
`'K'` falls through every branch and the code returns `baseC`, the value
translated to the Celsius pivot from `fromUnit` — not the input
unchanged and not an error. -/
theorem temp_unknown_target_thm (v : ℚ) (fromUnit toUnit : String)
    (h1 : toUnit ≠ "C") (h2 : toUnit ≠ "F") (h3 : toUnit ≠ "K") :
    convertUnit v fromUnit toUnit "TEMP" = some (tempToCelsius fromUnit v) := by
  unfold convertUnit
  rw [if_neg (by decide), if_pos rfl, if_neg h1, if_neg h2, if_neg h3]

/-- C10 witness: 50 °F converted to the unlisted unit `'X'` yields the
Celsius pivot 10 °C, not 50. -/
theorem temp_unknown_target_witness :
    convertUnit 50 "F" "X" "TEMP" = some 10 := by
  have h := temp_unknown_target_thm 50 "F" "X" (by decide) (by decide) (by decide)
  rw [show tempToCelsius "F" 50 = 10 from by norm_num [tempToCelsius]] at h
  exact h

/-- C6 counterexample.  The formatter does not return a string for every
input: for the value 1.2 (with 4 decimals) the third branch returns
`Number(num.toFixed(d))`, a JS number — `fmt` yields the `num`
constructor, which models a number, not a string. -/
theorem fmt_returns_number :
    (fmt (some (6 / 5)) 4).isString = false := by
  have hc : ¬(|(6 / 5 : ℚ)| < 1 / 10000 ∧ (6 / 5 : ℚ) ≠ 0) := by
    rw [abs_of_pos (by norm_num : (0 : ℚ) < 6 / 5)]
    norm_num
  rw [show fmt (some (6 / 5)) 4 = FmtResult.num (toFixedNum (6 / 5) 4) from by
    simp only [fmt, if_neg hc]]
  rfl

/-- C6 (amended).  The formatter returns the placeholder dash for
null/undefined/NaN input, a scientific-notation string with `d`
fractional digits exactly when the value is nonzero with magnitude below
1e-4, and otherwise a JS number equal to the value rounded to `d`
fractional digits (so its rendering suppresses trailing zeros):
`fmt 1.2 4` is the number 1.2 and `fmt 0.00005` is scientific. -/
theorem fmt_branch_spec :
    (∀ d : ℕ, fmt none d = FmtResult.dash) ∧
    (∀ (q : ℚ) (d : ℕ),
      fmt (some q) d = FmtResult.sci q d ↔ (|q| < 1 / 10000 ∧ q ≠ 0)) ∧
    (∀ (q : ℚ) (d : ℕ), ¬(|q| < 1 / 10000 ∧ q ≠ 0) →
      fmt (some q) d = FmtResult.num (toFixedNum q d)) ∧
    fmt (some (6 / 5)) 4 = FmtResult.num (6 / 5) ∧
    fmt (some (1 / 20000)) 4 = FmtResult.sci (1 / 20000) 4 := by
  refine ⟨fun d => rfl, ?_, ?_, ?_, ?_⟩
  · intro q d
    by_cases h : |q| < 1 / 10000 ∧ q ≠ 0
    · simp [fmt, h]
    · rw [show fmt (some q) d = FmtResult.num (toFixedNum q d) from by
        simp only [fmt, if_neg h]]
      exact iff_of_false (by simp) h
  · intro q d h
    simp only [fmt, if_neg h]
  · have hc : ¬(|(6 / 5 : ℚ)| < 1 / 10000 ∧ (6 / 5 : ℚ) ≠ 0) := by
      rw [abs_of_pos (by norm_num : (0 : ℚ) < 6 / 5)]
      norm_num
    simp only [fmt, if_neg hc]
    congr 1
    norm_num [toFixedNum]
  · have hc : |(1 / 20000 : ℚ)| < 1 / 10000 ∧ (1 / 20000 : ℚ) ≠ 0 := by
      rw [abs_of_pos (by norm_num : (0 : ℚ) < 1 / 20000)]
      norm_num
    simp only [fmt, if_pos hc]

/-- C6 witness: a value outside the scientific range lands in the
number-returning branch. -/
theorem fmt_branch_spec_witness :
    fmt (some 1) 4 = FmtResult.num 1 := by
  have h := fmt_branch_spec.2.2.1 1 4 (by norm_num)
  rw [show toFixedNum 1 4 = 1 from by norm_num [toFixedNum]] at h
  exact h

/-- Helper: the dilution loop produces exactly one entry per step. -/
theorem dilutionSteps_length (DF : ℚ) (n : ℕ) :
    ∀ c : ℚ, (dilutionSteps DF c n).length = n := by
  induction n with
  | zero => intro c; rfl
  | succ k ih => intro c; simp [dilutionSteps, ih]

/-- Helper: the i-th loop entry equals the start value divided by
DF^(i+1) (exact rational arithmetic collapses the running quotient). -/
theorem dilutionSteps_entry (DF : ℚ) (n : ℕ) :
    ∀ (c : ℚ) (i : ℕ), i < n →
      (dilutionSteps DF c n)[i]? = some (c / DF ^ (i + 1)) := by
  induction n with
  | zero => intro c i h; exact absurd h (Nat.not_lt_zero i)
  | succ k ih =>
    intro c i h
    cases i with
    | zero => simp [dilutionSteps]
    | succ j =>
      have hj : j < k := Nat.lt_of_succ_lt_succ h
      simp only [dilutionSteps, List.getElem?_cons_succ]
      rw [ih (c / DF) j hj]
      congr 1
      rw [div_div, ← pow_succ']

/-- C7.  For valid inputs (C0 > 0, DF > 1, 0 < steps ≤ 10) the dilution
sequence has exactly steps+1 entries, entry i holds concentration
C0 / DF^i, and the reported final concentration (the last entry) is
C0 / DF^steps; any input violating the bounds produces the empty
sequence. -/
theorem dilution_spec_thm :
    (∀ (C0 DF : ℚ) (n : ℕ), 0 < C0 → 1 < DF → 0 < n → n ≤ 10 →
      (dilutionData C0 DF (n : ℚ)).length = n + 1 ∧
      (∀ i : ℕ, i ≤ n →
        (dilutionData C0 DF (n : ℚ))[i]? = some (C0 / DF ^ i)) ∧
      (dilutionData C0 DF (n : ℚ)).getLast? = some (C0 / DF ^ n)) ∧
    (∀ C0 DF S : ℚ,
      (C0 ≤ 0 ∨ DF ≤ 1 ∨ S ≤ 0 ∨ 10 < S) → dilutionData C0 DF S = []) := by
  constructor
  · intro C0 DF n h1 h2 h3 h4
    have hg : ¬(C0 ≤ 0 ∨ DF ≤ 1 ∨ (n : ℚ) ≤ 0 ∨ 10 < (n : ℚ)) := by
      push_neg
      exact ⟨h1, h2, by exact_mod_cast h3, by exact_mod_cast h4⟩
    have hndata : dilutionData C0 DF (n : ℚ) = C0 :: dilutionSteps DF C0 n := by
      unfold dilutionData
      rw [if_neg hg]
      simp
    have hlen : (dilutionData C0 DF (n : ℚ)).length = n + 1 := by
      rw [hndata]
      simp [dilutionSteps_length]
    have hent : ∀ i : ℕ, i ≤ n →
        (dilutionData C0 DF (n : ℚ))[i]? = some (C0 / DF ^ i) := by
      intro i hi
      rw [hndata]
      cases i with
      | zero => simp
      | succ j =>
        have hj : j < n := Nat.lt_of_succ_le hi
        rw [List.getElem?_cons_succ]
        exact dilutionSteps_entry DF n C0 j hj
    refine ⟨hlen, hent, ?_⟩
    rw [List.getLast?_eq_getElem?, hlen]
    simpa using hent n le_rfl
  · intro C0 DF S h
    unfold dilutionData
    rw [if_pos h]

/-- C7 witness: with C0 = 1, DF = 10 and 3 steps the sequence has 4
entries, and an out-of-bounds start (C0 = 0) yields no sequence. -/
theorem dilution_spec_witness :
    (dilutionData 1 10 ((3 : ℕ) : ℚ)).length = 3 + 1 ∧
    dilutionData 0 10 3 = [] :=
  ⟨(dilution_spec_thm.1 1 10 3 (by norm_num) (by norm_num) (by norm_num)
      (by norm_num)).1,
   dilution_spec_thm.2 0 10 3 (Or.inl le_rfl)⟩

/-- C8.  Buffer complementarity: for every finite pH and pKa the molar
fractions computed from `ratio = 10^(pH - pKa)` satisfy
`X_Acid + X_Salt = 1` (the ratio is a positive real, so the shared
denominator `1 + ratio` never vanishes). -/
theorem buffer_fraction_complementarity (pH pKa : ℚ) :
    X_Acid pH pKa + X_Salt pH pKa = 1 := by
  have hr : 0 < hhRatio pH pKa := Real.rpow_pos_of_pos (by norm_num) _
  have h1 : (1 : ℝ) + hhRatio pH pKa ≠ 0 := ne_of_gt (by linarith)
  unfold X_Acid X_Salt
  field_simp

/-- C4 counterexample.  Target pH is not part of the buffer guard: with
pH = 0 (an empty or zero field) and otherwise valid inputs
(pKa = 6.86, both MW = 100, V = 1000 mL, C = 0.1 M) the buffer useMemo
still produces a result with positive masses, so the calculate handler
saves a record — refuting the claim that a target pH ≤ 0 yields no
result. -/
theorem buffer_ph_zero_produces_result :
    bufferSaves 0 6.86 100 100 1000 (1 / 10) := by
  have hr : 0 < hhRatio 0 6.86 := Real.rpow_pos_of_pos (by norm_num) _
  have hd : (0 : ℝ) < 1 + hhRatio 0 6.86 := by linarith
  have hA : 0 < X_Acid 0 6.86 := div_pos one_pos hd
  have hS : 0 < X_Salt 0 6.86 := div_pos hr hd
  have hV : convertUnit 1000 "mL" "L" "VOLUME" = some 1 := by
    show some (1000 * (1 / 1000) / 1) = some 1
    congr 1
    norm_num
  have hguard : ¬((6.86 : ℚ) ≤ 0 ∨ (1000 : ℚ) ≤ 0 ∨ (1 / 10 : ℚ) ≤ 0 ∨
      (100 : ℚ) ≤ 0 ∨ (100 : ℚ) ≤ 0) := by norm_num
  unfold bufferSaves bufferCalc
  rw [if_neg hguard]
  simp only [hV, Option.getD_some]
  push_cast
  constructor
  · nlinarith [hA]
  · nlinarith [hS]

/-- C4 (amended).  Each calculator returns its no-result placeholder
whenever one of the fields its guard actually checks is ≤ 0 (for the
buffer: pKa, volume, concentration and both molecular weights — the
target pH is not checked); all embedded calculators are total functions,
so this path cannot throw. -/
theorem calculators_guard_no_result :
    (∀ pH pKa MWa MWs V C : ℚ,
      (pKa ≤ 0 ∨ V ≤ 0 ∨ C ≤ 0 ∨ MWa ≤ 0 ∨ MWs ≤ 0) →
      bufferCalc pH pKa MWa MWs V C = none) ∧
    (∀ (W D C T : ℚ) (doseUnit concUnit : String),
      (W ≤ 0 ∨ D ≤ 0 ∨ C ≤ 0) → doseCalc W D C T doseUnit concUnit = none) ∧
    (∀ (MW C V : ℚ) (concUnit volUnit : String),
      (MW ≤ 0 ∨ V ≤ 0 ∨ C ≤ 0) → solutionGrams MW C V concUnit volUnit = some 0) ∧
    (∀ C0 DF S : ℚ,
      (C0 ≤ 0 ∨ DF ≤ 1 ∨ S ≤ 0 ∨ 10 < S) → dilutionData C0 DF S = []) := by
  refine ⟨?_, ?_, ?_, ?_⟩
  · intro pH pKa MWa MWs V C h
    unfold bufferCalc
    rw [if_pos h]
  · intro W D C T du cu h
    unfold doseCalc
    rw [if_pos h]
  · intro MW C V cu vu h
    unfold solutionGrams
    rw [if_pos h]
  · intro C0 DF S h
    unfold dilutionData
    rw [if_pos h]

/-- C4 witness: a non-positive pKa makes the buffer calculator return no
result. -/
theorem calculators_guard_no_result_witness :
    bufferCalc 7.4 0 100 100 1000 (1 / 10) = none :=
  calculators_guard_no_result.1 7.4 0 100 100 1000 (1 / 10) (Or.inl le_rfl)
